import Mathlib

/-!
Shallow embedding of the broker adapter layer of the algo-trading-system
repository (src/backend/app/brokers/): the adapter factory
(`get_broker_adapter` in brokers/__init__.py) and the three concrete
adapters `DhanBroker` (dhan.py), `AngelOneBroker` (angel_one.py) and
`FyersBroker` (fyers.py).

Modelling conventions:
- Vendor JSON payloads are `JValue` values; dictionary lookup `d.get(k)`
  on a value known to be a dict is `jLookup`, on an arbitrary value it is
  `JValue.get?` (returning `none` off a dict only where the Python code
  catches the resulting exception).
- Adapter instance attributes (`self.smart_api`, `self.headers`, ...) are
  explicit state records (`AngelOneState`, `DhanState`, `FyersState`).
- Network calls and vendor SDK calls are modelled by dependency injection:
  the vendor's response (HTTP status code, body, decoded JSON, or the SDK
  call's result) is a parameter of the operation, so a mock endpoint of
  the spec's scenarios is just a concrete argument. `Option`/`Except`
  results model Python exceptions where the code can raise.
- Python string falsiness (`not self.client_id`) is `none` or `""`.
-/

set_option autoImplicit false

/-- A JSON-like value, as produced by decoding a vendor response body.
Numbers are modelled as integers; no claim involves fractional values. -/
inductive JValue where
  | null
  | bool (b : Bool)
  | str (s : String)
  | num (n : Int)
  | arr (xs : List JValue)
  | obj (fields : List (String × JValue))
  deriving Repr, Inhabited

/-- First-match lookup in a decoded JSON object's field list
(Python `dict` keys are unique, `dict.get` / `in` semantics). -/
def jLookup : List (String × JValue) → String → Option JValue
  | [], _ => none
  | (k, v) :: rest, key => if k = key then some v else jLookup rest key

/-- `d.get(key)` on an arbitrary value: `none` when the receiver is not a
dict (where Python would raise `AttributeError`) or the key is absent. -/
def JValue.get? : JValue → String → Option JValue
  | .obj fields, key => jLookup fields key
  | _, _ => none

/-- Python truthiness of a decoded JSON value. -/
def jTruthy : JValue → Bool
  | .null => false
  | .bool b => b
  | .str s => !(s = "")
  | .num n => !(n = 0)
  | .arr xs => !xs.isEmpty
  | .obj fs => !fs.isEmpty

/-- The credentials dict passed to `connect`; each field models
`credentials.get("...")` (absent key = `none`). -/
structure Credentials where
  api_key : Option String := none
  client_id : Option String := none
  password : Option String := none
  totp_key : Option String := none
  totp : Option String := none
  access_token : Option String := none

/-- The `order_details` dict passed to `place_order`; each field models
`order_details.get("...")`. `price` is an integer stand-in for the float
field; every claim only touches its default 0. -/
structure OrderDetails where
  symbol : Option String := none
  token : Option String := none
  side : Option String := none
  quantity : Option Int := none
  product_type : Option String := none
  order_type : Option String := none
  price : Option Int := none

/-! ## DhanBroker (src/backend/app/brokers/dhan.py)

The REST-token adapter. All operations are plain HTTP calls; the HTTP
response (status code, body text, decoded JSON) is injected. -/

/-- `DhanBroker.__init__`: `client_id = None`, `access_token = None`,
`headers = {}`. -/
structure DhanState where
  client_id : Option String := none
  access_token : Option String := none
  headers : List (String × String) := []
  deriving Repr

/-- `DhanBroker.connect`: store the credentials; fail (return `False`) when
client id or access token is missing or empty; otherwise set exactly the
three request headers and return `True`. No network call is made: the
function is pure in the credentials, mirroring that the code contacts no
endpoint ("Ideally verify connection here" is a comment, not code). -/
def dhanConnect (creds : Credentials) (s : DhanState) : Bool × DhanState :=
  let s1 : DhanState := { s with client_id := creds.client_id, access_token := creds.access_token }
  match creds.client_id, creds.access_token with
  | some cid, some tok =>
    if cid = "" || tok = "" then (false, s1)
    else (true, { s1 with headers :=
      [("X-Client-Id", cid), ("X-Dhan-Client-Token", tok), ("Content-Type", "application/json")] })
  | _, _ => (false, s1)

/-- `DhanBroker.get_profile`: no vendor call, returns `{"client_id": ...}`. -/
def dhanGetProfile (s : DhanState) : List (String × Option String) :=
  [("client_id", s.client_id)]

/-- The JSON payload `DhanBroker.place_order` posts to `/orders`. -/
structure DhanOrderPayload where
  dhanClientId : Option String
  transactionType : Option String
  exchangeSegment : String
  productType : String
  securityId : Option String
  quantity : Option Int
  orderType : String
  price : Int
  validity : String
  deriving Repr

/-- The payload built inside `DhanBroker.place_order`. -/
def dhanOrderPayload (s : DhanState) (od : OrderDetails) : DhanOrderPayload :=
  { dhanClientId := s.client_id
    transactionType := od.side
    exchangeSegment := "NSE_EQ"
    productType := od.product_type.getD "INTRADAY"
    securityId := od.symbol
    quantity := od.quantity
    orderType := od.order_type.getD "MARKET"
    price := od.price.getD 0
    validity := "DAY" }

/-- `DhanBroker.place_order`: POST `/orders`; on a status code other than
200 return `{"status": "error", "message": response.text}`, otherwise the
decoded response body. There is no connection precondition check. -/
def dhanPlaceOrder (_s : DhanState) (respStatus : Nat) (respText : String)
    (respJson : JValue) : JValue :=
  if respStatus ≠ 200 then .obj [("status", .str "error"), ("message", .str respText)]
  else respJson

/-- `DhanBroker.cancel_order`: DELETE `/orders/{id}`; `True` iff status 200. -/
def dhanCancelOrder (_s : DhanState) (respStatus : Nat) : Bool :=
  respStatus == 200

/-- `DhanBroker.get_order_status`: GET `/orders/{id}`; body on 200, else `{}`. -/
def dhanGetOrderStatus (_s : DhanState) (respStatus : Nat) (respJson : JValue) : JValue :=
  if respStatus = 200 then respJson else .obj []

/-- `DhanBroker.get_positions`: GET `/positions`; body on 200, else `[]`. -/
def dhanGetPositions (_s : DhanState) (respStatus : Nat) (respJson : JValue) : JValue :=
  if respStatus = 200 then respJson else .arr []

/-- `DhanBroker.get_holdings`: GET `/holdings`; body on 200, else `[]`. -/
def dhanGetHoldings (_s : DhanState) (respStatus : Nat) (respJson : JValue) : JValue :=
  if respStatus = 200 then respJson else .arr []

/-! ## AngelOneBroker (src/backend/app/brokers/angel_one.py)

The TOTP-session adapter over the SmartConnect SDK. The result of each
SDK call (`generateSession`, `getProfile`, `placeOrder`, ...) is injected;
`connect`'s TOTP derivation only influences the arguments of the injected
`generateSession` call and not the control flow modelled here. -/

/-- `AngelOneBroker.__init__`: `smart_api = None`, `client_code = None`,
`refresh_token = None`. `smart_api : Bool` records whether the
`SmartConnect` handle has been created (it is, by any `connect` call). -/
structure AngelOneState where
  smart_api : Bool := false
  client_code : Option String := none
  refresh_token : Option JValue := none
  deriving Repr

/-- `AngelOneBroker.connect`, with the decoded `generateSession` response
injected as `sessionResp`. Returns `none` where the Python code raises
(`data["data"].get(...)` on a non-dict `"data"` value), otherwise the
returned boolean and the updated adapter state. Note the handle and
client code are stored before the outcome is inspected. -/
def angelConnect (creds : Credentials) (sessionResp : JValue)
    (s : AngelOneState) : Option (Bool × AngelOneState) :=
  let s1 : AngelOneState := { s with smart_api := true, client_code := creds.client_id }
  match sessionResp with
  | .obj fields =>
    match jLookup fields "status" with
    | some (.bool false) => some (false, s1)
    | _ =>
      match jLookup fields "data" with
      | some (.obj dfields) =>
        some (true, { s1 with refresh_token := jLookup dfields "refreshToken" })
      | some _ => none
      | none => some (true, s1)
  | _ => some (true, s1)

/-- `AngelOneBroker.get_profile`: calls the SDK only when both the handle
and a truthy refresh token are present; otherwise returns `{}`. -/
def angelGetProfile (s : AngelOneState) (profileResp : JValue) : JValue :=
  if s.smart_api && (s.refresh_token.map jTruthy).getD false then profileResp
  else .obj []

/-- The `orderparams` dict built inside `AngelOneBroker.place_order`. -/
structure AngelOrderParams where
  variety : String
  tradingsymbol : Option String
  symboltoken : Option String
  transactiontype : Option String
  exchange : String
  ordertype : String
  producttype : String
  duration : String
  price : Int
  squareoff : String
  stoploss : String
  quantity : Option Int
  deriving Repr

/-- The vendor order schema `AngelOneBroker.place_order` fills in. -/
def angelOrderParams (od : OrderDetails) : AngelOrderParams :=
  { variety := "NORMAL"
    tradingsymbol := od.symbol
    symboltoken := od.token
    transactiontype := od.side
    exchange := "NSE"
    ordertype := od.order_type.getD "MARKET"
    producttype := od.product_type.getD "INTRADAY"
    duration := "DAY"
    price := od.price.getD 0
    squareoff := "0"
    stoploss := "0"
    quantity := od.quantity }

/-- `AngelOneBroker.place_order`: raises `RuntimeError("Broker not
connected")` without a handle; otherwise sends `angelOrderParams` and
returns `{"order_id": order_id}` with the SDK's return value. -/
def angelPlaceOrder (s : AngelOneState) (od : OrderDetails)
    (orderId : JValue) : Except String (AngelOrderParams × JValue) :=
  if s.smart_api then .ok (angelOrderParams od, .obj [("order_id", orderId)])
  else .error "Broker not connected"

/-- `AngelOneBroker.cancel_order`: `False` without a handle; otherwise
`True` unless the SDK call raises (`vendorRaises`), then `False`. -/
def angelCancelOrder (s : AngelOneState) (vendorRaises : Bool) : Bool :=
  if s.smart_api then (if vendorRaises then false else true)
  else false

/-- Scan a vendor order list for the entry whose `key` field equals
`oid` (`order["orderid"] == order_id` in angel_one.py, `order["id"] ==
order_id` in fyers.py; a non-string field value compares unequal). -/
def findOrderBy (key : String) (oid : String) : List JValue → Option JValue
  | [] => none
  | o :: rest =>
    match o.get? key with
    | some (.str v) => if v = oid then some o else findOrderBy key oid rest
    | _ => findOrderBy key oid rest

/-- `AngelOneBroker.get_order_status`: `{}` without a handle; otherwise
scan the truthy order book's `"data"` list for the order id, else `{}`. -/
def angelGetOrderStatus (s : AngelOneState) (orderBook : JValue)
    (oid : String) : JValue :=
  if s.smart_api then
    if jTruthy orderBook then
      match orderBook.get? "data" with
      | some (.arr orders) => (findOrderBy "orderid" oid orders).getD (.obj [])
      | _ => .obj []
    else .obj []
  else .obj []

/-- `AngelOneBroker.get_positions`: `[]` without a handle; otherwise
`resp.get("data", [])` from the decoded `position()` response dict. -/
def angelGetPositions (s : AngelOneState) (resp : List (String × JValue)) : JValue :=
  if s.smart_api then (jLookup resp "data").getD (.arr [])
  else .arr []

/-- `AngelOneBroker.get_holdings`: `[]` without a handle; otherwise
`resp.get("data", [])` from the decoded `holding()` response dict. -/
def angelGetHoldings (s : AngelOneState) (resp : List (String × JValue)) : JValue :=
  if s.smart_api then (jLookup resp "data").getD (.arr [])
  else .arr []

/-! ## FyersBroker (src/backend/app/brokers/fyers.py)

The SDK-wrapped adapter. SDK call results are injected; responses of the
guarded query operations are the decoded vendor dicts. -/

/-- `FyersBroker.__init__`: `fyers = None`, `client_id = None`. `fyers :
Bool` records whether the `FyersModel` handle has been created. -/
structure FyersState where
  fyers : Bool := false
  client_id : Option String := none
  deriving Repr

/-- `FyersBroker.connect`: create the handle, then verify by an immediate
profile fetch. `profileResp = none` models `get_profile` raising; the
response envelope must carry `"s" == "ok"` (a lookup on a non-dict
response raises inside the `try`, which is caught), else `False`. -/
def fyersConnect (creds : Credentials) (profileResp : Option JValue)
    (s : FyersState) : Bool × FyersState :=
  let s1 : FyersState := { s with fyers := true, client_id := creds.client_id }
  match profileResp with
  | none => (false, s1)
  | some r =>
    match r with
    | .obj fields =>
      match jLookup fields "s" with
      | some (.str v) => (if v = "ok" then (true, s1) else (false, s1))
      | _ => (false, s1)
    | _ => (false, s1)

/-- `FyersBroker.get_profile`: SDK call when the handle exists, else `{}`. -/
def fyersGetProfile (s : FyersState) (profileResp : JValue) : JValue :=
  if s.fyers then profileResp else .obj []

/-- `order_type_map` in `FyersBroker.place_order`:
Fyers numeric order types. -/
def order_type_map : List (String × Int) :=
  [("LIMIT", 1), ("MARKET", 2), ("STOP_LIMIT", 3), ("STOP_MARKET", 4)]

/-- `side_map` in `FyersBroker.place_order`: Fyers numeric sides. -/
def side_map : List (String × Int) :=
  [("BUY", 1), ("SELL", -1)]

/-- Python `dict.get(key, default)` on a str-to-int dict. -/
def dictGetInt : List (String × Int) → String → Int → Int
  | [], _, d => d
  | (k, v) :: rest, key, d => if k = key then v else dictGetInt rest key d

/-- The `data` dict `FyersBroker.place_order` passes to the SDK. -/
structure FyersOrderPayload where
  symbol : Option String
  qty : Option Int
  type : Int
  side : Int
  productType : String
  limitPrice : Int
  stopPrice : Int
  validity : String
  disclosedQty : Int
  offlineOrder : Bool
  deriving Repr

/-- The vendor payload built inside `FyersBroker.place_order`:
`order_type_map.get(order_details.get("order_type", "MARKET"), 2)` and
`side_map.get(order_details.get("side", "BUY"), 1)`. -/
def fyersOrderData (od : OrderDetails) : FyersOrderPayload :=
  { symbol := od.symbol
    qty := od.quantity
    type := dictGetInt order_type_map (od.order_type.getD "MARKET") 2
    side := dictGetInt side_map (od.side.getD "BUY") 1
    productType := od.product_type.getD "INTRADAY"
    limitPrice := od.price.getD 0
    stopPrice := 0
    validity := "DAY"
    disclosedQty := 0
    offlineOrder := false }

/-- `FyersBroker.place_order`: raises `RuntimeError("Broker not
connected")` without a handle; otherwise sends `fyersOrderData` to the
SDK and returns the SDK's response unchanged. -/
def fyersPlaceOrder (s : FyersState) (od : OrderDetails)
    (vendorResp : JValue) : Except String (FyersOrderPayload × JValue) :=
  if s.fyers then .ok (fyersOrderData od, vendorResp)
  else .error "Broker not connected"

/-- `FyersBroker.cancel_order`: `False` without a handle; otherwise
`True` iff the response envelope has `"s" == "ok"`. -/
def fyersCancelOrder (s : FyersState) (resp : List (String × JValue)) : Bool :=
  if s.fyers then
    match jLookup resp "s" with
    | some (.str v) => v == "ok"
    | _ => false
  else false

/-- `FyersBroker.get_order_status`: `{}` without a handle; otherwise scan
the `"orderBook"` list of an `"s" == "ok"` envelope for the id, else `{}`. -/
def fyersGetOrderStatus (s : FyersState) (resp : List (String × JValue))
    (oid : String) : JValue :=
  if s.fyers then
    match jLookup resp "s" with
    | some (.str v) =>
      if v = "ok" then
        match jLookup resp "orderBook" with
        | some (.arr orders) => (findOrderBy "id" oid orders).getD (.obj [])
        | _ => .obj []
      else .obj []
    | _ => .obj []
  else .obj []

/-- `FyersBroker.get_positions`: `[]` without a handle; otherwise
`response.get("netPositions", [])` when `"s" == "ok"`, else `[]`. -/
def fyersGetPositions (s : FyersState) (resp : List (String × JValue)) : JValue :=
  if s.fyers then
    match jLookup resp "s" with
    | some (.str v) =>
      if v = "ok" then (jLookup resp "netPositions").getD (.arr []) else .arr []
    | _ => .arr []
  else .arr []

/-- `FyersBroker.get_holdings`: `[]` without a handle; otherwise
`response.get("holdings", [])` when `"s" == "ok"`, else `[]`. -/
def fyersGetHoldings (s : FyersState) (resp : List (String × JValue)) : JValue :=
  if s.fyers then
    match jLookup resp "s" with
    | some (.str v) =>
      if v = "ok" then (jLookup resp "holdings").getD (.arr []) else .arr []
    | _ => .arr []
  else .arr []

/-! ## Adapter factory (src/backend/app/brokers/__init__.py) -/

/-- Python `str.lower()` as used on the broker name (ASCII lowering; it
agrees with Python on the ASCII broker identifiers and their casings). -/
def strLower (s : String) : String := String.mk (s.data.map Char.toLower)

/-- A resolved adapter instance together with its state. -/
inductive BrokerAdapterInstance where
  | dhan (s : DhanState)
  | angelOne (s : AngelOneState)
  | fyers (s : FyersState)
  deriving Repr

/-- `get_broker_adapter`: case-insensitive name match returning a freshly
constructed (default-state, unauthenticated) adapter; an unknown name
raises `ValueError(f"Unsupported broker: {broker_name}")` — the
`UnsupportedBrokerError` of the spec's taxonomy — modelled as the
`Except.error` carrying that message. -/
def get_broker_adapter (broker_name : String) : Except String BrokerAdapterInstance :=
  if strLower broker_name = "dhan" then .ok (.dhan {})
  else if strLower broker_name = "angelone" then .ok (.angelOne {})
  else if strLower broker_name = "fyers" then .ok (.fyers {})
  else .error ("Unsupported broker: " ++ broker_name)

/-! ## Theorems for the spec claims -/

/-- The spec's round-trip example order: symbol SBIN, side BUY, quantity
10, order type MARKET, product type INTRADAY. -/
def sbinOrder : OrderDetails :=
  { symbol := some "SBIN", side := some "BUY", quantity := some 10,
    order_type := some "MARKET", product_type := some "INTRADAY" }

/-- The vendor payload the SDK-wrapped adapter should build for
`sbinOrder`. -/
def sbinFyersPayload : FyersOrderPayload :=
  { symbol := some "SBIN", qty := some 10, type := 2, side := 1,
    productType := "INTRADAY", limitPrice := 0, stopPrice := 0,
    validity := "DAY", disclosedQty := 0, offlineOrder := false }

/-- C5: `FyersBroker.place_order` translates the broker-agnostic order
fields to the vendor's numeric encodings: side `BUY ↦ 1`, `SELL ↦ -1`;
order type `LIMIT ↦ 1`, `MARKET ↦ 2`, `STOP_LIMIT ↦ 3`, `STOP_MARKET ↦ 4`;
and the order `{symbol: "SBIN", side: BUY, quantity: 10, order_type:
MARKET, product_type: INTRADAY}` produces a vendor payload with
`side = 1`, `type = 2` and the same symbol and quantity. -/
theorem c5_fyers_order_translation :
    (fyersOrderData { side := some "BUY" }).side = 1
  ∧ (fyersOrderData { side := some "SELL" }).side = -1
  ∧ (fyersOrderData { order_type := some "LIMIT" }).type = 1
  ∧ (fyersOrderData { order_type := some "MARKET" }).type = 2
  ∧ (fyersOrderData { order_type := some "STOP_LIMIT" }).type = 3
  ∧ (fyersOrderData { order_type := some "STOP_MARKET" }).type = 4
  ∧ (∀ vendorResp : JValue,
      fyersPlaceOrder { fyers := true } sbinOrder vendorResp
      = .ok (sbinFyersPayload, vendorResp)) :=
  ⟨rfl, rfl, rfl, rfl, rfl, rfl, fun _ => rfl⟩

/-- C7: `AngelOneBroker.connect` with credentials `{api_key: "k",
client_id: "C1", password: "p", totp_key: "base32seed"}` against a
session endpoint answering `{"status": true, "data": {"refreshToken":
"R1"}}` returns `true` and leaves the adapter holding refresh token
`"R1"`. -/
theorem c7_angel_connect_scenario :
    angelConnect
      { api_key := some "k", client_id := some "C1", password := some "p",
        totp_key := some "base32seed" }
      (.obj [("status", .bool true), ("data", .obj [("refreshToken", .str "R1")])])
      {}
    = some (true, { smart_api := true, client_code := some "C1",
                    refresh_token := some (.str "R1") }) := rfl

/-- C4: `DhanBroker.place_order` against an endpoint answering any
non-2xx HTTP status yields the error result carrying the response body
(`{"status": "error", "message": <body>}`), never a success-shaped
result. (The code's guard is `status_code != 200`, which every non-2xx
status satisfies.) -/
theorem c4_dhan_place_order_non2xx_error (s : DhanState) (code : Nat)
    (text : String) (body : JValue) (h : ¬ (200 ≤ code ∧ code < 300)) :
    dhanPlaceOrder s code text body
      = .obj [("status", .str "error"), ("message", .str text)] := by
  have hne : code ≠ 200 := by
    rintro rfl
    exact h ⟨le_refl 200, by norm_num⟩
  simp [dhanPlaceOrder, hne]

/-- C4 witness: HTTP 500 yields the error result with the vendor body. -/
theorem c4_witness :
    ¬ (200 ≤ 500 ∧ 500 < 300)
  ∧ dhanPlaceOrder {} 500 "Internal Server Error" .null
      = .obj [("status", .str "error"), ("message", .str "Internal Server Error")] :=
  ⟨by decide,
   c4_dhan_place_order_non2xx_error {} 500 "Internal Server Error" .null (by decide)⟩

/-- C8: `DhanBroker.connect` with a non-empty client id and access token
returns `true` and sets exactly the headers `X-Client-Id`,
`X-Dhan-Client-Token` and `Content-Type`; the function takes no vendor
response, so no live endpoint is contacted. -/
theorem c8_dhan_connect_headers (creds : Credentials) (s : DhanState)
    (cid tok : String) (h1 : creds.client_id = some cid)
    (h2 : creds.access_token = some tok) (h3 : cid ≠ "") (h4 : tok ≠ "") :
    dhanConnect creds s
      = (true, { client_id := some cid, access_token := some tok,
                 headers := [("X-Client-Id", cid), ("X-Dhan-Client-Token", tok),
                             ("Content-Type", "application/json")] }) := by
  simp [dhanConnect, h1, h2, h3, h4]

/-- C8 witness: concrete non-empty credentials produce `true` and exactly
the three documented headers. -/
theorem c8_witness :
    dhanConnect { client_id := some "CLI1", access_token := some "TOK1" } {}
      = (true, { client_id := some "CLI1", access_token := some "TOK1",
                 headers := [("X-Client-Id", "CLI1"), ("X-Dhan-Client-Token", "TOK1"),
                             ("Content-Type", "application/json")] }) :=
  c8_dhan_connect_headers _ {} "CLI1" "TOK1" rfl rfl (by decide) (by decide)

/-- C2: the claim that `get_positions`/`get_holdings` propagate an error
on a fetch failure is violated by the code: `DhanBroker` answers `[]` for
any non-200 response, and `FyersBroker` answers `[]` for a non-"ok"
envelope, both indistinguishable from a confirmed-zero result. This
theorem evaluates the code at those failing inputs. -/
theorem c2_fetch_failure_returns_empty :
    dhanGetPositions {} 500 .null = .arr []
  ∧ dhanGetHoldings {} 500 .null = .arr []
  ∧ fyersGetPositions { fyers := true } [("s", .str "error")] = .arr []
  ∧ fyersGetHoldings { fyers := true } [("s", .str "error")] = .arr [] :=
  ⟨rfl, rfl, rfl, rfl⟩

/-- C1 counterexample: on freshly constructed (never-connected) adapters
the operations do NOT fail with a `NotConnectedError`: `AngelOneBroker.
cancel_order` returns the plain value `false`, `AngelOneBroker.
get_positions` and `FyersBroker.get_positions` return the plain empty
list even when the injected vendor response carries positions, and
`DhanBroker.place_order` performs the HTTP call with no connection check
and returns the 200 response body as a success. -/
theorem c1_counterexample_silent_noop :
    angelCancelOrder {} false = false
  ∧ angelGetPositions {} [("data", .arr [.str "pos"])] = .arr []
  ∧ fyersGetPositions {} [("s", .str "ok"), ("netPositions", .arr [.str "pos"])] = .arr []
  ∧ dhanPlaceOrder {} 200 "" (.obj [("orderId", .str "1")]) = .obj [("orderId", .str "1")] :=
  ⟨rfl, rfl, rfl, rfl⟩

/-- C1 (amended): before any `connect`, only `place_order` of the
TOTP-session and SDK-wrapped adapters fails, raising `RuntimeError
("Broker not connected")`; every other guarded operation returns a silent
default (`false`, `{}` or `[]`) without an error, and the REST-token
adapter performs no connection check at all: its `get_profile` on a
fresh instance returns the silent record `{"client_id": None}` rather
than an error, and each of its HTTP operations (place, cancel, status,
positions, holdings) behaves on a fresh state exactly as on any other
state. -/
theorem c1_amended_preconnect_behaviour :
    (∀ (od : OrderDetails) (j : JValue), angelPlaceOrder {} od j = .error "Broker not connected")
  ∧ (∀ v : Bool, angelCancelOrder {} v = false)
  ∧ (∀ j : JValue, angelGetProfile {} j = .obj [])
  ∧ (∀ (j : JValue) (oid : String), angelGetOrderStatus {} j oid = .obj [])
  ∧ (∀ resp : List (String × JValue), angelGetPositions {} resp = .arr [])
  ∧ (∀ resp : List (String × JValue), angelGetHoldings {} resp = .arr [])
  ∧ (∀ (od : OrderDetails) (j : JValue), fyersPlaceOrder {} od j = .error "Broker not connected")
  ∧ (∀ resp : List (String × JValue), fyersCancelOrder {} resp = false)
  ∧ (∀ j : JValue, fyersGetProfile {} j = .obj [])
  ∧ (∀ (resp : List (String × JValue)) (oid : String), fyersGetOrderStatus {} resp oid = .obj [])
  ∧ (∀ resp : List (String × JValue), fyersGetPositions {} resp = .arr [])
  ∧ (∀ resp : List (String × JValue), fyersGetHoldings {} resp = .arr [])
  ∧ dhanGetProfile {} = [("client_id", none)]
  ∧ (∀ (st : DhanState) (code : Nat) (txt : String) (j : JValue),
      dhanPlaceOrder st code txt j = dhanPlaceOrder {} code txt j
      ∧ dhanCancelOrder st code = dhanCancelOrder {} code
      ∧ dhanGetOrderStatus st code j = dhanGetOrderStatus {} code j
      ∧ dhanGetPositions st code j = dhanGetPositions {} code j
      ∧ dhanGetHoldings st code j = dhanGetHoldings {} code j) :=
  ⟨fun _ _ => rfl, fun _ => rfl, fun _ => rfl, fun _ _ => rfl, fun _ => rfl, fun _ => rfl,
   fun _ _ => rfl, fun _ => rfl, fun _ => rfl, fun _ _ => rfl, fun _ => rfl, fun _ => rfl,
   rfl, fun _ _ _ _ => ⟨rfl, rfl, rfl, rfl, rfl⟩⟩

/-- C3: `get_broker_adapter` resolves each supported broker name
case-insensitively to a fresh default-state (unauthenticated) instance of
the corresponding adapter, and fails on every other name with the
unsupported-broker error naming the requested value. -/
theorem c3_factory_resolution :
    (∀ s : String, strLower s = "dhan" → get_broker_adapter s = .ok (.dhan {}))
  ∧ (∀ s : String, strLower s = "angelone" → get_broker_adapter s = .ok (.angelOne {}))
  ∧ (∀ s : String, strLower s = "fyers" → get_broker_adapter s = .ok (.fyers {}))
  ∧ (∀ s : String, strLower s ≠ "dhan" → strLower s ≠ "angelone" → strLower s ≠ "fyers" →
      get_broker_adapter s = .error ("Unsupported broker: " ++ s)) := by
  refine ⟨?_, ?_, ?_, ?_⟩ <;> intro s <;> intros <;> simp [get_broker_adapter, *]

/-- C3 witness: mixed-case supported names resolve to the matching fresh
adapter; an unknown name fails with the error naming it. -/
theorem c3_witness :
    get_broker_adapter "DhAn" = .ok (.dhan {})
  ∧ get_broker_adapter "ANGELONE" = .ok (.angelOne {})
  ∧ get_broker_adapter "Fyers" = .ok (.fyers {})
  ∧ get_broker_adapter "zerodha" = .error ("Unsupported broker: " ++ "zerodha") :=
  ⟨c3_factory_resolution.1 "DhAn" (by decide),
   c3_factory_resolution.2.1 "ANGELONE" (by decide),
   c3_factory_resolution.2.2.1 "Fyers" (by decide),
   c3_factory_resolution.2.2.2 "zerodha" (by decide) (by decide) (by decide)⟩

/-- C9: `FyersBroker.place_order` silently substitutes defaults for
unrecognized or missing enum fields: any `order_type` outside the four
known values (including absence) encodes as `2` (MARKET), any `side`
outside BUY/SELL (including absence) encodes as `1` (BUY), and no error
is raised — on a connected adapter the order is sent regardless. -/
theorem c9_fyers_silent_defaults :
    (∀ (od : OrderDetails) (t : String), od.order_type = some t →
      t ≠ "LIMIT" → t ≠ "MARKET" → t ≠ "STOP_LIMIT" → t ≠ "STOP_MARKET" →
      (fyersOrderData od).type = 2)
  ∧ (∀ od : OrderDetails, od.order_type = none → (fyersOrderData od).type = 2)
  ∧ (∀ (od : OrderDetails) (v : String), od.side = some v →
      v ≠ "BUY" → v ≠ "SELL" → (fyersOrderData od).side = 1)
  ∧ (∀ od : OrderDetails, od.side = none → (fyersOrderData od).side = 1)
  ∧ (∀ (od : OrderDetails) (j : JValue),
      fyersPlaceOrder { fyers := true } od j = .ok (fyersOrderData od, j)) := by
  refine ⟨?_, ?_, ?_, ?_, fun od j => rfl⟩
  · intro od t h1 h2 h3 h4 h5
    simp [fyersOrderData, order_type_map, dictGetInt, h1,
      Ne.symm h2, Ne.symm h3, Ne.symm h4, Ne.symm h5]
  · intro od h1
    simp [fyersOrderData, order_type_map, dictGetInt, h1]
  · intro od v h1 h2 h3
    simp [fyersOrderData, side_map, dictGetInt, h1, Ne.symm h2, Ne.symm h3]
  · intro od h1
    simp [fyersOrderData, side_map, dictGetInt, h1]

/-- C9 witness: an unknown order type and side, and absent ones, all get
the MARKET/BUY encodings, and the connected adapter raises no error. -/
theorem c9_witness :
    (fyersOrderData { order_type := some "ICEBERG" }).type = 2
  ∧ (fyersOrderData {}).type = 2
  ∧ (fyersOrderData { side := some "SHORT" }).side = 1
  ∧ (fyersOrderData {}).side = 1
  ∧ fyersPlaceOrder { fyers := true } { side := some "SHORT" } .null
      = .ok (fyersOrderData { side := some "SHORT" }, .null) :=
  ⟨c9_fyers_silent_defaults.1 _ "ICEBERG" rfl (by decide) (by decide) (by decide) (by decide),
   c9_fyers_silent_defaults.2.1 {} rfl,
   c9_fyers_silent_defaults.2.2.1 _ "SHORT" rfl (by decide) (by decide),
   c9_fyers_silent_defaults.2.2.2.1 {} rfl,
   c9_fyers_silent_defaults.2.2.2.2 _ .null⟩

/-- C6: `FyersBroker.connect` is verified by an immediate profile fetch:
it returns `true` exactly when the fetched profile envelope carries
`"s" == "ok"`; a non-"ok" envelope (of any shape) or an exception during
the fetch makes it return `false`. -/
theorem c6_fyers_connect_profile_check :
    (∀ (creds : Credentials) (st : FyersState) (r : JValue),
      (fyersConnect creds (some r) st).1 = true ↔ r.get? "s" = some (.str "ok"))
  ∧ (∀ (creds : Credentials) (st : FyersState),
      (fyersConnect creds none st).1 = false) := by
  refine ⟨fun creds st r => ?_, fun creds st => rfl⟩
  cases r with
  | obj fields =>
    simp only [fyersConnect, JValue.get?]
    cases h : jLookup fields "s" with
    | none => simp
    | some v =>
      cases v with
      | str w =>
        by_cases hw : w = "ok" <;> simp [hw]
      | null => simp
      | bool b => simp
      | num n => simp
      | arr xs => simp
      | obj fs => simp
  | null => simp [fyersConnect, JValue.get?]
  | bool b => simp [fyersConnect, JValue.get?]
  | str w => simp [fyersConnect, JValue.get?]
  | num n => simp [fyersConnect, JValue.get?]
  | arr xs => simp [fyersConnect, JValue.get?]

/-- C6 witness: an "ok" envelope makes `connect` return `true`; the
exception case returns `false`. -/
theorem c6_witness :
    (fyersConnect {} (some (.obj [("s", .str "ok")])) {}).1 = true
  ∧ (fyersConnect {} none {}).1 = false :=
  ⟨(c6_fyers_connect_profile_check.1 {} {} (.obj [("s", .str "ok")])).mpr rfl,
   c6_fyers_connect_profile_check.2 {} {}⟩

/-- C10: `AngelOneBroker.connect` returns `false` only when the vendor
session response is a dict whose `"status"` field is the boolean `false`;
a non-dict response of any kind, and a dict without a `"data"` field
whose `"status"` is not the boolean `false`, both make it return `true`
while leaving the refresh token unset. -/
theorem c10_angel_connect_false_characterisation :
    (∀ (creds : Credentials) (resp : JValue) (st st' : AngelOneState),
      angelConnect creds resp st = some (false, st') →
      ∃ fields, resp = .obj fields ∧ jLookup fields "status" = some (.bool false))
  ∧ (∀ (creds : Credentials) (st : AngelOneState) (resp : JValue),
      (∀ fields, resp ≠ .obj fields) →
      angelConnect creds resp st
        = some (true, { st with smart_api := true, client_code := creds.client_id }))
  ∧ (∀ (creds : Credentials) (st : AngelOneState) (fields : List (String × JValue)),
      jLookup fields "data" = none →
      jLookup fields "status" ≠ some (.bool false) →
      angelConnect creds (.obj fields) st
        = some (true, { st with smart_api := true, client_code := creds.client_id })) := by
  refine ⟨?_, ?_, ?_⟩
  · intro creds resp st st' h
    cases resp with
    | obj fields =>
      refine ⟨fields, rfl, ?_⟩
      unfold angelConnect at h
      simp only at h
      split at h
      · next heq => exact heq
      · next =>
        split at h <;> simp_all
    | null => simp [angelConnect] at h
    | bool b => simp [angelConnect] at h
    | str w => simp [angelConnect] at h
    | num n => simp [angelConnect] at h
    | arr xs => simp [angelConnect] at h
  · intro creds st resp h
    cases resp with
    | obj fields => exact absurd rfl (h fields)
    | null => rfl
    | bool b => rfl
    | str w => rfl
    | num n => rfl
    | arr xs => rfl
  · intro creds st fields h1 h2
    unfold angelConnect
    simp only
    split <;> simp_all

/-- C10 witness: a `None` session response, and `{"status": true}` with
no `"data"` field, both yield `true` with no refresh token stored. -/
theorem c10_witness :
    angelConnect {} .null {} = some (true, { smart_api := true, client_code := none })
  ∧ angelConnect {} (.obj [("status", .bool true)]) {}
      = some (true, { smart_api := true, client_code := none }) :=
  ⟨c10_angel_connect_false_characterisation.2.1 {} {} .null (by intro fields h; cases h),
   c10_angel_connect_false_characterisation.2.2 {} {} [("status", .bool true)]
     (by simp [jLookup]) (by simp [jLookup])⟩
